import Mathlib

/-!
Verification development for the flix-backend session-credential core.

The GraphQL resolvers (`src/app/graphql/graphql.resolvers.ts`) are embedded
directly.  The collaborating services (`#auth/auth.service`,
`#graphql/graphql.service`, `#users/users.service`) are not part of the
source tree; where a claim depends on them they are modelled from the
specification, and each such definition carries a doc comment starting with
"Modelled from the spec:".
-/

namespace Flix

/-- An error entry as it appears in the `errors` array of every response. -/
structure ErrMsg where
  message : String
deriving DecidableEq, Repr

/-- A user record as far as the credential core sees it: the stringified
`_id` and the stored password hash (the fingerprint source). -/
structure User where
  _id : String
  passwordHash : String
deriving DecidableEq, Repr

/-- Request-scoped authentication status derived from the presented access
token (spec section 3): `isAuthenticated` plus the token holder id. -/
structure AuthStatus where
  isAuthenticated : Bool
  userId : Option String
deriving DecidableEq, Repr

/-- The uniform result envelope `\x7bdata, errors, statusCode\x7d` returned by the
authorization gate and by the service collaborators. -/
structure Envelope (α : Type) where
  data : Option α
  errors : List ErrMsg
  statusCode : Nat
deriving DecidableEq, Repr

/-- The error produced when an unauthenticated request hits the gate. -/
def unauthenticatedError : ErrMsg :=
  ⟨"Authentication Error: You need to be logged in."⟩

/-- The error produced when an authenticated request targets a foreign user. -/
def unauthorizedError : ErrMsg :=
  ⟨"Authorization Error: You are not allowed to do that."⟩

/-- The error literal of the `silentRefresh` resolver
(graphql.resolvers.ts line 324). -/
def invalidRefreshTokenError : ErrMsg :=
  ⟨"Authentication Error: Invalid refresh token."⟩

/-- Modelled from the spec: `runIfAuthenticated` of the AuthorizationGate
(graphql.service.ts, absent from src/).  If `authStatus.isAuthenticated` is
false it returns the 401 envelope without invoking `operation`; otherwise it
runs `operation` and forwards its result, wrapping a thrown failure as a 500
envelope.  The second component records whether `operation` was invoked. -/
def runIfAuthenticated (authStatus : AuthStatus)
    (operation : Unit → Except ErrMsg (Envelope α)) : Envelope α × Bool :=
  if authStatus.isAuthenticated then
    match operation () with
    | .ok e => (e, true)
    | .error m => ({ data := none, errors := [m], statusCode := 500 }, true)
  else
    ({ data := none, errors := [unauthenticatedError], statusCode := 401 }, false)

/-- Modelled from the spec: `runIfAuthorized` of the AuthorizationGate
(graphql.service.ts, absent from src/).  It additionally requires
`authStatus.userId = targetUserId`; a mismatch (even if authenticated)
yields a 401 envelope with an Unauthorized error and does not run
`operation`.  The second component records whether `operation` was
invoked. -/
def runIfAuthorized (authStatus : AuthStatus) (targetUserId : String)
    (operation : Unit → Except ErrMsg (Envelope α)) : Envelope α × Bool :=
  if authStatus.userId ≠ some targetUserId then
    ({ data := none, errors := [unauthorizedError], statusCode := 401 }, false)
  else
    runIfAuthenticated authStatus operation

/-- Refresh-token TTL in seconds (auth.config, absent from src/).
Modelled from the spec: the refresh token has the longer TTL, measured in
days; the exact constant is not relevant to any claim. -/
def REFRESH_TOKEN_EXPIRATION_IN_SECONDS : Nat := 7 * 24 * 60 * 60

/-- Access-token TTL in seconds.  Modelled from the spec: short TTL
(minutes); the exact constant is not relevant to any claim. -/
def JWT_TOKEN_EXPIRATION_IN_SECONDS : Nat := 10 * 60

/-- The payload encoded in a signed access token (spec section 3):
user id, password-hash fingerprint and expiry. -/
structure JWTPayload where
  userId : String
  passwordHash : String
  expiresAt : Nat
deriving DecidableEq, Repr

/-- A refresh-token whitelist record (spec section 3): the opaque token
value, the owner, the password-hash fingerprint and the expiry instant. -/
structure RefreshTokenData where
  refreshToken : String
  userId : String
  passwordHash : String
  expiresAt : Nat
deriving DecidableEq, Repr

/-- The shared TokenStore state: refresh-token whitelist and access-token
blacklist (each blacklist entry pairs the token with its expiry). -/
structure Store where
  whitelist : List RefreshTokenData
  blacklist : List (String × Nat)
deriving DecidableEq, Repr

/-- Modelled from the spec: `whitelistLookup` of the TokenStore
(auth.service, absent from src/) — the record stored under a token value. -/
def whitelistLookup (wl : List RefreshTokenData) (t : String) :
    Option RefreshTokenData :=
  wl.find? (fun r => r.refreshToken == t)

/-- Modelled from the spec: deletion of every record keyed by `t`
(`whitelistRemove`); a no-op when the token is absent. -/
def whitelistRemoveToken (wl : List RefreshTokenData) (t : String) :
    List RefreshTokenData :=
  wl.filter (fun r => r.refreshToken != t)

/-- Modelled from the spec: `removeRefreshTokenFromWhitelist`
(auth.service, absent from src/); an absent cookie is a no-op. -/
def removeRefreshTokenFromWhitelist (cookie : Option String)
    (wl : List RefreshTokenData) : List RefreshTokenData :=
  match cookie with
  | none => wl
  | some t => whitelistRemoveToken wl t

/-- Modelled from the spec: `addRefreshTokenToWhitelist` (auth.service,
absent from src/) — an idempotent upsert keyed by the token value. -/
def addRefreshTokenToWhitelist (r : RefreshTokenData)
    (wl : List RefreshTokenData) : List RefreshTokenData :=
  r :: whitelistRemoveToken wl r.refreshToken

/-- Modelled from the spec: `blacklistContains` of the TokenStore — expired
entries must not report as present, checked at read time. -/
def blacklistContains (bl : List (String × Nat)) (now : Nat) (t : String) :
    Bool :=
  bl.any (fun e => e.1 == t && decide (now < e.2))

/-- Modelled from the spec: `addAccessTokenToBlacklist` (auth.service,
absent from src/).  The token is decoded to recover its own expiry, which
the blacklist entry mirrors; an absent or malformed token is skipped
silently.  Insertion has set semantics. -/
def addAccessTokenToBlacklist (decode : String → Option JWTPayload)
    (token : Option String) (bl : List (String × Nat)) :
    List (String × Nat) :=
  match token with
  | none => bl
  | some t =>
    match decode t with
    | none => bl
    | some p => if (t, p.expiresAt) ∈ bl then bl else (t, p.expiresAt) :: bl

/-- Lookup of a user record by stringified `_id`. -/
def findUser (users : List User) (uid : String) : Option User :=
  users.find? (fun u => u._id == uid)

/-- Modelled from the spec: `generateRefreshTokenData` (auth.service,
absent from src/) — builds the whitelist record for a freshly drawn random
token, embedding the current password hash as fingerprint. -/
def generateRefreshTokenData (freshToken : String)
    (userId passwordHash : String) (now : Nat) : RefreshTokenData :=
  ⟨freshToken, userId, passwordHash, now + REFRESH_TOKEN_EXPIRATION_IN_SECONDS⟩

/-- A `res.cookie` mutation on the `refreshToken` cookie: the value plus
the attributes this code ever sets (`expires` as epoch milliseconds,
`maxAge` in milliseconds). -/
structure CookieSet where
  value : String
  expiresAtMs : Option Nat
  maxAgeMs : Option Nat
deriving DecidableEq, Repr

/-- `res.cookie` call clearing the refresh cookie: empty value with the
already-expired date `new Date(0)` (epoch 0). -/
def clearRefreshCookie : CookieSet := ⟨"", some 0, none⟩

/-- `res.cookie` call installing a refresh token with
`maxAge = REFRESH_TOKEN_EXPIRATION_IN_SECONDS * 1000`. -/
def setRefreshCookie (v : String) : CookieSet :=
  ⟨v, none, some (REFRESH_TOKEN_EXPIRATION_IN_SECONDS * 1000)⟩

/-- The world a refresh call runs in: user records, the shared store, the
current instant, the random-token supply (indexed by a draw counter), and
the JWT signer (userId, passwordHash and expiry to signed string). -/
structure World where
  users : List User
  store : Store
  now : Nat
  tokenSupply : Nat → String
  tokenCtr : Nat
  sign : String → String → Nat → String

/-- The non-null result of `refreshAllTokens`. -/
structure RefreshedTokens where
  user : User
  jwtToken : String
  refreshTokenData : RefreshTokenData
deriving DecidableEq, Repr

/-- Modelled from the spec: `refreshAllTokens` (auth.service, absent from
src/), the RefreshFlow of spec section 4.4.  Step 1 looks the presented
token up in the whitelist and rejects if it is absent or expired; step 2
re-verifies the password-hash fingerprint against the current user record,
removing the stale record on mismatch; step 3 atomically replaces the
whitelist record with a freshly issued one (`whitelistReplace`); step 4
issues the new access token.  One call is one atomic step against the
store, matching the atomic compare-and-swap contract of spec
section 4.2. -/
def refreshAllTokens (cookie : Option String) (w : World) :
    Option RefreshedTokens × World :=
  match cookie with
  | none => (none, w)
  | some t =>
    match whitelistLookup w.store.whitelist t with
    | none => (none, w)
    | some r =>
      if w.now < r.expiresAt then
        match findUser w.users r.userId with
        | some u =>
          if u.passwordHash == r.passwordHash then
            let newRec := generateRefreshTokenData (w.tokenSupply w.tokenCtr)
              r.userId u.passwordHash w.now
            let jwt := w.sign r.userId u.passwordHash
              (w.now + JWT_TOKEN_EXPIRATION_IN_SECONDS)
            (some ⟨u, jwt, newRec⟩,
             { w with
                 store := { w.store with
                   whitelist := newRec :: whitelistRemoveToken w.store.whitelist t },
                 tokenCtr := w.tokenCtr + 1 })
          else
            (none,
             { w with store := { w.store with
                 whitelist := whitelistRemoveToken w.store.whitelist t } })
        | none =>
          (none,
           { w with store := { w.store with
               whitelist := whitelistRemoveToken w.store.whitelist t } })
      else (none, w)

/-- The response shape of the `silentRefresh` resolver. -/
structure SilentRefreshResponse where
  statusCode : Nat
  user : Option User
  jwtToken : String
  errors : List ErrMsg
deriving DecidableEq, Repr

/-- The `silentRefresh` resolver (graphql.resolvers.ts lines 305-341): it
reads the `refreshToken` cookie, calls `refreshAllTokens`, and on a null
result clears the cookie and returns the 400 envelope with the
InvalidRefreshToken error; on success it installs the rotated token as the
cookie and returns 200 with the new pair. -/
def silentRefresh (cookie : Option String) (w : World) :
    SilentRefreshResponse × CookieSet × World :=
  let (result, w1) := refreshAllTokens cookie w
  match result with
  | none =>
    (⟨400, none, "", [invalidRefreshTokenError]⟩, clearRefreshCookie, w1)
  | some rt =>
    (⟨200, some rt.user, rt.jwtToken, []⟩,
     setRefreshCookie rt.refreshTokenData.refreshToken, w1)

/-- `n` further `silentRefresh` calls presenting the same cookie, each run
on the world the previous call left behind; returns the responses. -/
def silentRefreshChain (cookie : Option String) : Nat → World →
    List SilentRefreshResponse × World
  | 0, w => ([], w)
  | n + 1, w =>
    let (resp, _, w1) := silentRefresh cookie w
    let (rest, wf) := silentRefreshChain cookie n w1
    (resp :: rest, wf)

/-- The response shape of the `logoutUser` resolver. -/
structure LogoutResponse where
  statusCode : Nat
  user : Option User
  errors : List ErrMsg
deriving DecidableEq, Repr

/-- `req?.headers?.authorization?.slice?.(7)` of graphql.resolvers.ts line
345: the access token is the authorization header value with its first 7
characters dropped; an absent header yields an absent token. -/
def deriveJwtFromHeader (authorization : Option String) : Option String :=
  authorization.map (fun h => h.drop 7)

/-- The `logoutUser` resolver (graphql.resolvers.ts lines 343-358):
blacklist the access token derived from the authorization header, delist
the refresh cookie, clear the cookie, and return 200 with no errors. -/
def logoutUser (decode : String → Option JWTPayload) (cookie : Option String)
    (authorization : Option String) (st : Store) :
    LogoutResponse × CookieSet × Store :=
  let jwtToken := deriveJwtFromHeader authorization
  let bl := addAccessTokenToBlacklist decode jwtToken st.blacklist
  let wl := removeRefreshTokenFromWhitelist cookie st.whitelist
  (⟨200, none, []⟩, clearRefreshCookie, ⟨wl, bl⟩)

/-- Modelled from the spec: the per-request authentication check of the
gate (auth.router, absent from src/) — signature/decode, expiry, blacklist
exclusion, and the password-hash fingerprint re-check against the current
user record; every failure collapses into the unauthenticated status. -/
def checkAccessToken (decode : String → Option JWTPayload)
    (users : List User) (bl : List (String × Nat)) (now : Nat)
    (token : Option String) : AuthStatus :=
  match token with
  | none => ⟨false, none⟩
  | some t =>
    match decode t with
    | none => ⟨false, none⟩
    | some p =>
      if decide (now < p.expiresAt) && !(blacklistContains bl now t) &&
         (match findUser users p.userId with
          | some u => u.passwordHash == p.passwordHash
          | none => false)
      then ⟨true, some p.userId⟩
      else ⟨false, none⟩

/-- The response shape of the `loginUser` resolver. -/
structure LoginResponse where
  statusCode : Nat
  user : Option User
  jwtToken : String
  refreshTokenData : Option RefreshTokenData
  errors : List ErrMsg
deriving DecidableEq, Repr

/-- The `loginUser` resolver (graphql.resolvers.ts lines 251-303).
`svcLogin` is the outcome of `usersService.loginUser` and `signFn` the
outcome of `generateJWTToken` for a given (userId, passwordHash) payload;
an `Except.error` models a thrown exception.  On a found user the resolver
builds the refresh record, signs the access token, whitelists the record
and sets the refresh cookie; any throw inside the try block is caught and
recovered into a statusCode-500 envelope with the error message. -/
def loginUser (svcLogin : Except String (Envelope User))
    (signFn : String → String → Except String String)
    (freshToken : String) (now : Nat) (st : Store) :
    LoginResponse × Option CookieSet × Store :=
  match (do
      let env ← svcLogin
      match env.data with
      | some user => do
        let rtd := generateRefreshTokenData freshToken user._id
          user.passwordHash now
        let jwt ← signFn user._id user.passwordHash
        pure ((⟨env.statusCode, some user, jwt, some rtd, env.errors⟩ :
                LoginResponse),
              some (setRefreshCookie rtd.refreshToken),
              { st with whitelist := addRefreshTokenToWhitelist rtd st.whitelist })
      | none =>
        pure ((⟨env.statusCode, none, "", none, env.errors⟩ : LoginResponse),
              none, st)
    : Except String (LoginResponse × Option CookieSet × Store)) with
  | .ok r => r
  | .error msg => (⟨500, none, "", none, [⟨msg⟩]⟩, none, st)

/-- A GraphQL error thrown by a resolver (apollo-server-express). -/
inductive ResolverError
  | authenticationError (msg : String)
  | apolloError (msg : String)
deriving DecidableEq, Repr

/-- The response shape of the `updateUser` resolver. -/
structure UpdateUserResponse where
  statusCode : Nat
  user : Option User
  errors : List ErrMsg
deriving DecidableEq, Repr

/-- The `updateUser` resolver (graphql.resolvers.ts lines 177-192): run
the service call through `runIfAuthorized`; when the envelope carries
errors, throw `AuthenticationError` for statusCode 401 and `ApolloError`
otherwise; else return the envelope fields.  A thrown error is the
`Except.error` case. -/
def updateUser (authStatus : AuthStatus) (userId : String)
    (svcUpdate : Unit → Except ErrMsg (Envelope User)) :
    Except ResolverError UpdateUserResponse :=
  let r := (runIfAuthorized authStatus userId svcUpdate).1
  match r.errors with
  | [] => .ok ⟨r.statusCode, r.data, r.errors⟩
  | e :: _ =>
    if r.statusCode == 401 then .error (.authenticationError e.message)
    else .error (.apolloError e.message)

/-- The result shape of the `movies` query resolver. -/
structure MoviesResult (α : Type) where
  movies : List α
  totalPages : Nat
  totalResults : Nat
deriving DecidableEq, Repr

/-- The `movies` resolver (graphql.resolvers.ts lines 116-151): behind
`runIfAuthenticated`, fetch every requested id and keep only the responses
carrying data (`fetch` returns the `response.data` field); the envelope
reports `totalPages = 1` and `totalResults` equal to the number of movies
collected.  When the gate reports errors the resolver throws. -/
def moviesResolver {α : Type} (authStatus : AuthStatus)
    (fetch : Nat → Option α) (movieIds : List Nat) :
    Except ResolverError (MoviesResult α) :=
  let movies := movieIds.filterMap fetch
  let r := (runIfAuthenticated authStatus
    (fun _ => Except.ok (⟨some movies, [], 200⟩ : Envelope (List α)))).1
  match r.errors with
  | [] => .ok ⟨movies, 1, movies.length⟩
  | e :: _ =>
    if r.statusCode == 401 then .error (.authenticationError e.message)
    else .error (.apolloError e.message)

/-- Where a single concurrent refresh call stands: not yet started its
store reads, validated (holding the record its lookup returned), or done
with a success flag. -/
inductive Phase
  | start
  | validated (r : RefreshTokenData)
  | done (success : Bool)
deriving DecidableEq, Repr

/-- Whether a call finished successfully. -/
def isSuccess : Phase → Bool
  | .done true => true
  | _ => false

/-- Whether a call has finished. -/
def isDone : Phase → Bool
  | .done _ => true
  | _ => false

/-- The shared state seen by a set of concurrent refresh calls: the
whitelist, the random-draw counter, and each call's phase. -/
structure RotState where
  wl : List RefreshTokenData
  ctr : Nat
  calls : List Phase
deriving Repr

/-- One atomic store access of one concurrent refresh call: its validating
read (`lookup i`) or its compare-and-swap replacement (`cas i`). -/
inductive RotEvt
  | lookup (i : Nat)
  | cas (i : Nat)
deriving DecidableEq, Repr

/-- Modelled from the spec: the fine-grained RefreshFlow of spec sections
4.2/4.4/5, with each call presenting the same cookie token `t` and split
into its two atomic store accesses, so that concurrent calls are exactly
the interleavings of these events.  `lookup i` performs steps 1-2
(whitelist lookup, expiry and fingerprint checks, stale-record removal on
mismatch); `cas i` performs the atomic `whitelistReplace`, which succeeds
only if `t` is still present at that moment and otherwise rejects the
call. -/
def rotStep (users : List User) (now : Nat) (supply : Nat → String)
    (t : String) (s : RotState) (e : RotEvt) : RotState :=
  match e with
  | .lookup i =>
    match s.calls[i]? with
    | some Phase.start =>
      match whitelistLookup s.wl t with
      | none => { s with calls := s.calls.set i (Phase.done false) }
      | some r =>
        if now < r.expiresAt then
          match findUser users r.userId with
          | some u =>
            if u.passwordHash == r.passwordHash then
              { s with calls := s.calls.set i (Phase.validated r) }
            else
              { s with wl := whitelistRemoveToken s.wl t,
                       calls := s.calls.set i (Phase.done false) }
          | none =>
            { s with wl := whitelistRemoveToken s.wl t,
                     calls := s.calls.set i (Phase.done false) }
        else { s with calls := s.calls.set i (Phase.done false) }
    | _ => s
  | .cas i =>
    match s.calls[i]? with
    | some (Phase.validated r) =>
      if (whitelistLookup s.wl t).isSome then
        { s with
            wl := generateRefreshTokenData (supply s.ctr) r.userId
                    r.passwordHash now :: whitelistRemoveToken s.wl t,
            ctr := s.ctr + 1,
            calls := s.calls.set i (Phase.done true) }
      else { s with calls := s.calls.set i (Phase.done false) }
    | _ => s

/-- Run a whole interleaving of concurrent refresh events. -/
def rotRun (users : List User) (now : Nat) (supply : Nat → String)
    (t : String) (s : RotState) (events : List RotEvt) : RotState :=
  events.foldl (rotStep users now supply t) s

/-- How many of the concurrent calls have succeeded. -/
def successCount (s : RotState) : Nat :=
  s.calls.countP isSuccess

/-- The rotation invariant: either nobody has succeeded yet and the
original record still sits unchanged under `t` with every call at start or
validated with that record, or exactly one call has succeeded and `t` is
gone from the whitelist. -/
def RotInv (t : String) (r : RefreshTokenData) (s : RotState) : Prop :=
  (successCount s = 0 ∧ whitelistLookup s.wl t = some r ∧
    ∀ p ∈ s.calls, p = Phase.start ∨ p = Phase.validated r) ∨
  (successCount s = 1 ∧ whitelistLookup s.wl t = none)

end Flix

namespace Flix

/-- Claim C4: whenever `authStatus.userId` differs from `targetUserId`,
`runIfAuthorized` returns a 401 envelope carrying an Unauthorized error and
never invokes the wrapped operation, regardless of
`authStatus.isAuthenticated`. -/
theorem runIfAuthorized_mismatch_denies {α : Type}
    (authStatus : AuthStatus) (targetUserId : String)
    (operation : Unit → Except ErrMsg (Envelope α))
    (h : authStatus.userId ≠ some targetUserId) :
    runIfAuthorized authStatus targetUserId operation =
      ({ data := none, errors := [unauthorizedError], statusCode := 401 }, false) := by
  simp [runIfAuthorized, h]

/-- Witness for C4: a concrete authenticated status whose user id differs
from the target is denied with 401 and the operation is not invoked. -/
theorem runIfAuthorized_mismatch_denies_witness :
    (AuthStatus.mk true (some "alice")).userId ≠ some "bob" ∧
    runIfAuthorized (AuthStatus.mk true (some "alice")) "bob"
        (fun _ => Except.ok (⟨some 0, [], 200⟩ : Envelope Nat)) =
      ({ data := none, errors := [unauthorizedError], statusCode := 401 }, false) :=
  ⟨by decide,
   runIfAuthorized_mismatch_denies (AuthStatus.mk true (some "alice")) "bob"
     (fun _ => Except.ok (⟨some 0, [], 200⟩ : Envelope Nat)) (by decide)⟩

/-- Claim C2: a `silentRefresh` call whose presented token is absent from
the whitelist or expired rejects: the refresh cookie is cleared to the
already-expired epoch-0 date, the envelope has statusCode 400, a null
user, an empty access token and the InvalidRefreshToken error, and the
world (whitelist and token-draw counter included) is unchanged, so no new
tokens are issued. -/
theorem silentRefresh_rejects_absent_or_expired (w : World)
    (cookie : Option String)
    (h : ∀ t, cookie = some t →
      whitelistLookup w.store.whitelist t = none ∨
      ∃ r, whitelistLookup w.store.whitelist t = some r ∧ r.expiresAt ≤ w.now) :
    silentRefresh cookie w =
      (⟨400, none, "", [invalidRefreshTokenError]⟩, clearRefreshCookie, w) := by
  cases cookie with
  | none => rfl
  | some t =>
    rcases h t rfl with hnone | ⟨r, hr, hexp⟩
    · simp [silentRefresh, refreshAllTokens, hnone]
    · simp [silentRefresh, refreshAllTokens, hr, Nat.not_lt.mpr hexp]

/-- Witness for C2: a concrete world whose whitelist does not hold the
presented token rejects with the 400 InvalidRefreshToken envelope and the
cleared cookie. -/
theorem silentRefresh_rejects_absent_or_expired_witness :
    silentRefresh (some "absent")
        ⟨[], ⟨[], []⟩, 0, fun _ => "fresh", 0, fun _ _ _ => "jwt"⟩ =
      (⟨400, none, "", [invalidRefreshTokenError]⟩, clearRefreshCookie,
       ⟨[], ⟨[], []⟩, 0, fun _ => "fresh", 0, fun _ _ _ => "jwt"⟩) :=
  silentRefresh_rejects_absent_or_expired
    ⟨[], ⟨[], []⟩, 0, fun _ => "fresh", 0, fun _ _ _ => "jwt"⟩ (some "absent")
    (by intro t ht; injection ht with h2; subst h2; left; rfl)

/-- Re-adding a token to the blacklist is a no-op. -/
theorem addAccessTokenToBlacklist_idem (decode : String → Option JWTPayload)
    (token : Option String) (bl : List (String × Nat)) :
    addAccessTokenToBlacklist decode token
        (addAccessTokenToBlacklist decode token bl) =
      addAccessTokenToBlacklist decode token bl := by
  cases token with
  | none => rfl
  | some t =>
    cases hdec : decode t with
    | none => simp [addAccessTokenToBlacklist, hdec]
    | some p =>
      by_cases hm : (t, p.expiresAt) ∈ bl <;>
        simp [addAccessTokenToBlacklist, hdec, hm]

/-- Delisting the same refresh token twice is a no-op on the second run. -/
theorem removeRefreshTokenFromWhitelist_idem (cookie : Option String)
    (wl : List RefreshTokenData) :
    removeRefreshTokenFromWhitelist cookie
        (removeRefreshTokenFromWhitelist cookie wl) =
      removeRefreshTokenFromWhitelist cookie wl := by
  cases cookie with
  | none => rfl
  | some t =>
    simp [removeRefreshTokenFromWhitelist, whitelistRemoveToken,
      List.filter_filter]

/-- Claim C5: logout is total and idempotent.  For every input — repeated
calls with the same tokens, expired tokens, a missing access token or a
missing refresh token — `logoutUser` returns statusCode 200 with an empty
errors list, and a second identical call returns the same response and
leaves the store exactly where the first call left it. -/
theorem logoutUser_idempotent_total (decode : String → Option JWTPayload)
    (cookie authorization : Option String) (st : Store) :
    (logoutUser decode cookie authorization st).1 = ⟨200, none, []⟩ ∧
    logoutUser decode cookie authorization
        (logoutUser decode cookie authorization st).2.2 =
      (⟨200, none, []⟩, clearRefreshCookie,
       (logoutUser decode cookie authorization st).2.2) := by
  refine ⟨rfl, ?_⟩
  simp only [logoutUser]
  rw [addAccessTokenToBlacklist_idem, removeRefreshTokenFromWhitelist_idem]

/-- Claim C9: the access token blacklisted at logout is derived by
dropping exactly the first 7 characters of the authorization header value,
for every header value, including those not starting with the
`Bearer ` scheme; when the header is absent the derived token is absent,
the blacklist step is a no-op, and the call still returns 200. -/
theorem logout_drops_seven_header_chars (decode : String → Option JWTPayload)
    (cookie : Option String) (st : Store) :
    (∀ h : String, deriveJwtFromHeader (some h) = some (h.drop 7)) ∧
    deriveJwtFromHeader none = none ∧
    (logoutUser decode cookie none st).2.2.blacklist = st.blacklist ∧
    (logoutUser decode cookie none st).1 = ⟨200, none, []⟩ :=
  ⟨fun _ => rfl, rfl, rfl, rfl⟩

/-- Claim C10: for an authenticated `movies` query, ids whose fetch
carries no data are silently omitted (no error is raised), `totalPages` is
1 and `totalResults` is the number of movies actually returned, which is
at most the number of requested ids. -/
theorem movies_silently_omits_missing (α : Type) (authStatus : AuthStatus)
    (fetch : Nat → Option α) (movieIds : List Nat)
    (hauth : authStatus.isAuthenticated = true) :
    moviesResolver authStatus fetch movieIds =
      .ok ⟨movieIds.filterMap fetch, 1, (movieIds.filterMap fetch).length⟩ ∧
    (movieIds.filterMap fetch).length ≤ movieIds.length := by
  constructor
  · simp [moviesResolver, runIfAuthenticated, hauth]
  · exact List.length_filterMap_le fetch movieIds

/-- Witness for C10: an authenticated query for ids 1, 2, 3 where id 2
has no data returns just the two found movies, totalPages 1 and
totalResults 2, without an error. -/
theorem movies_silently_omits_missing_witness :
    (AuthStatus.mk true (some "u1")).isAuthenticated = true ∧
    moviesResolver (AuthStatus.mk true (some "u1"))
        (fun i => if i = 2 then none else some i) [1, 2, 3] =
      .ok ⟨[1, 3], 1, 2⟩ := by
  refine ⟨rfl, ?_⟩
  have h := (movies_silently_omits_missing Nat (AuthStatus.mk true (some "u1"))
    (fun i => if i = 2 then none else some i) [1, 2, 3] rfl).1
  rw [h]
  rfl

/-- Counterexample to claim C3: at a concrete input (an unauthenticated
call of the cited `updateUser` resolver) a taxonomy failure leaves the
core as a thrown `AuthenticationError`, not inside the envelope. -/
theorem updateUser_throws_counterexample :
    updateUser ⟨false, none⟩ "u1"
        (fun _ => Except.ok (⟨some ⟨"u1", "h1"⟩, [], 200⟩ : Envelope User)) =
      Except.error
        (ResolverError.authenticationError unauthorizedError.message) := rfl

/-- Claim C3 (amended): the gate combinators recover taxonomy failures
into the `\x7bdata, errors, statusCode\x7d` envelope, but the resolvers then
translate every error-carrying envelope into a thrown exception —
`AuthenticationError` when the statusCode is 401 and `ApolloError`
otherwise — so those failures do leave the resolvers as thrown
exceptions. -/
theorem updateUser_translates_envelope_errors (authStatus : AuthStatus)
    (userId : String) (svcUpdate : Unit → Except ErrMsg (Envelope User))
    (e : ErrMsg) (tl : List ErrMsg)
    (herr : (runIfAuthorized authStatus userId svcUpdate).1.errors = e :: tl) :
    updateUser authStatus userId svcUpdate =
      (if (runIfAuthorized authStatus userId svcUpdate).1.statusCode = 401
       then Except.error (ResolverError.authenticationError e.message)
       else Except.error (ResolverError.apolloError e.message)) := by
  by_cases h401 : (runIfAuthorized authStatus userId svcUpdate).1.statusCode = 401 <;>
    simp [updateUser, herr, h401]

/-- Witness for C3 (amended): a concrete authenticated call targeting a
foreign user carries the Unauthorized error in the gate envelope and the
resolver throws it as an `AuthenticationError`. -/
theorem updateUser_translates_envelope_errors_witness :
    (runIfAuthorized (AuthStatus.mk true (some "alice")) "bob"
        (fun _ => Except.ok (⟨some ⟨"bob", "h1"⟩, [], 200⟩ : Envelope User))).1.errors =
      unauthorizedError :: [] ∧
    updateUser (AuthStatus.mk true (some "alice")) "bob"
        (fun _ => Except.ok (⟨some ⟨"bob", "h1"⟩, [], 200⟩ : Envelope User)) =
      Except.error
        (ResolverError.authenticationError unauthorizedError.message) := by
  refine ⟨rfl, ?_⟩
  have h := updateUser_translates_envelope_errors
    (AuthStatus.mk true (some "alice")) "bob"
    (fun _ => Except.ok ⟨some ⟨"bob", "h1"⟩, [], 200⟩)
    unauthorizedError [] rfl
  rw [h]
  rfl

/-- Counterexample to claim C8: at a concrete input where signing throws,
the failure is recovered — `loginUser` converts it into a per-request
statusCode-500 error envelope instead of letting it stay fatal. -/
theorem loginUser_recovers_signing_failure_counterexample :
    loginUser (Except.ok ⟨some ⟨"u1", "h1"⟩, [], 200⟩)
        (fun _ _ => Except.error "jwt signing failed") "rt1" 0 ⟨[], []⟩ =
      (⟨500, none, "", none, [⟨"jwt signing failed"⟩]⟩, none, ⟨[], []⟩) := rfl

/-- Claim C8 (amended): `issueAccessToken` signals a signing failure by
throwing rather than by returning an error envelope of its own, but the
failure is not fatal to the flow: `loginUser` catches the throw and
recovers it into a per-request statusCode-500 envelope carrying the error
message, leaving the store untouched and setting no cookie. -/
theorem loginUser_signing_failure_yields_500 (env : Envelope User)
    (user : User) (signFn : String → String → Except String String)
    (freshToken : String) (now : Nat) (st : Store) (msg : String)
    (hdata : env.data = some user)
    (hsign : signFn user._id user.passwordHash = Except.error msg) :
    loginUser (Except.ok env) signFn freshToken now st =
      (⟨500, none, "", none, [⟨msg⟩]⟩, none, st) := by
  simp [loginUser, hdata, hsign, Except.bind, bind, pure, Except.pure]

/-- Witness for C8 (amended): a concrete login whose signer throws is
recovered into the 500 envelope with the thrown message. -/
theorem loginUser_signing_failure_yields_500_witness :
    (Envelope.mk (some (User.mk "u2" "h2")) [] 200).data =
      some (User.mk "u2" "h2") ∧
    loginUser (Except.ok ⟨some ⟨"u2", "h2"⟩, [], 200⟩)
        (fun _ _ => Except.error "no key") "rt2" 3 ⟨[], []⟩ =
      (⟨500, none, "", none, [⟨"no key"⟩]⟩, none, ⟨[], []⟩) :=
  ⟨rfl,
   loginUser_signing_failure_yields_500 ⟨some ⟨"u2", "h2"⟩, [], 200⟩
     ⟨"u2", "h2"⟩ (fun _ _ => Except.error "no key") "rt2" 3 ⟨[], []⟩
     "no key" rfl rfl⟩

/-- Blacklisting a decodable token leaves the pair of the token and its
own expiry in the blacklist. -/
theorem mem_addAccessTokenToBlacklist (decode : String → Option JWTPayload)
    (t : String) (p : JWTPayload) (bl : List (String × Nat))
    (hdec : decode t = some p) :
    (t, p.expiresAt) ∈ addAccessTokenToBlacklist decode (some t) bl := by
  by_cases hm : (t, p.expiresAt) ∈ bl <;>
    simp [addAccessTokenToBlacklist, hdec, hm]

/-- A blacklist entry that has not yet expired reports as present. -/
theorem blacklistContains_of_mem (bl : List (String × Nat)) (now : Nat)
    (t : String) (e : Nat) (hmem : (t, e) ∈ bl) (hlt : now < e) :
    blacklistContains bl now t = true := by
  refine List.any_eq_true.mpr ⟨(t, e), hmem, ?_⟩
  simp [hlt]

/-- Claim C6: the access token presented at logout is rejected by the
gate afterwards.  If the authorization header carries token `tk` after
its 7-character scheme cut and `tk` decodes to payload `p`, then after
`logoutUser` the gate check on `tk` yields the unauthenticated status at
every instant before the token's own natural expiry. -/
theorem logout_blacklists_presented_token
    (decode : String → Option JWTPayload) (users : List User)
    (cookie : Option String) (st : Store) (header tk : String)
    (p : JWTPayload) (now : Nat)
    (hdrop : header.drop 7 = tk)
    (hdec : decode tk = some p)
    (hnat : now < p.expiresAt) :
    checkAccessToken decode users
        ((logoutUser decode cookie (some header) st).2.2).blacklist now
        (some tk) = ⟨false, none⟩ := by
  have hbl : ((logoutUser decode cookie (some header) st).2.2).blacklist =
      addAccessTokenToBlacklist decode (some tk) st.blacklist := by
    simp [logoutUser, deriveJwtFromHeader, hdrop]
  have hmem := mem_addAccessTokenToBlacklist decode tk p st.blacklist hdec
  have hcont : blacklistContains
      ((logoutUser decode cookie (some header) st).2.2).blacklist now tk =
      true := by
    rw [hbl]
    exact blacklistContains_of_mem _ now tk p.expiresAt hmem hnat
  simp [checkAccessToken, hdec, hcont]

/-- Witness for C6: logging out with header `Bearer abc` blacklists the
token `abc`, and the gate then rejects `abc` at instant 5 although its
natural expiry is 100. -/
theorem logout_blacklists_presented_token_witness :
    ("Bearer abc".drop 7 = "abc") ∧ (5 < 100) ∧
    checkAccessToken
        (fun s => if s = "abc" then some ⟨"u1", "h1", 100⟩ else none)
        [⟨"u1", "h1"⟩]
        ((logoutUser
            (fun s => if s = "abc" then some ⟨"u1", "h1", 100⟩ else none)
            none (some "Bearer abc") ⟨[], []⟩).2.2).blacklist 5
        (some "abc") = ⟨false, none⟩ := by
  refine ⟨by decide, by decide, ?_⟩
  exact logout_blacklists_presented_token
    (fun s => if s = "abc" then some ⟨"u1", "h1", 100⟩ else none)
    [⟨"u1", "h1"⟩] none ⟨[], []⟩ "Bearer abc" "abc" ⟨"u1", "h1", 100⟩ 5
    (by decide) (by decide) (by decide)

/-- Claim C7: tokens issued before a password change fail validation
afterwards by fingerprint mismatch alone.  A successful login embeds the
then-current password hash in both the signed access token and the
whitelisted refresh record; once the user record carries a different
hash, the gate rejects the access token (at any instant, whatever the
blacklist) and `silentRefresh` rejects the still-whitelisted,
still-unexpired refresh token with 400 InvalidRefreshToken — with no
explicit per-token revocation step in between. -/
theorem password_change_invalidates_tokens
    (decode : String → Option JWTPayload) (svcEnv : Envelope User)
    (u : User) (signFn : String → String → Except String String)
    (freshToken jwtStr : String) (now aexp : Nat) (st : Store)
    (usersLater : List User) (newHash : String)
    (bl : List (String × Nat)) (chkNow : Nat) (w2 : World)
    (hdata : svcEnv.data = some u)
    (hsign : signFn u._id u.passwordHash = Except.ok jwtStr)
    (hdec : decode jwtStr = some ⟨u._id, u.passwordHash, aexp⟩)
    (hchanged : newHash ≠ u.passwordHash)
    (hlater : findUser usersLater u._id = some ⟨u._id, newHash⟩)
    (hw2users : w2.users = usersLater)
    (hw2look : whitelistLookup w2.store.whitelist freshToken =
      some (generateRefreshTokenData freshToken u._id u.passwordHash now))
    (_hw2exp : w2.now <
      (generateRefreshTokenData freshToken u._id u.passwordHash now).expiresAt) :
    (loginUser (Except.ok svcEnv) signFn freshToken now st).1.refreshTokenData =
      some (generateRefreshTokenData freshToken u._id u.passwordHash now) ∧
    (loginUser (Except.ok svcEnv) signFn freshToken now st).1.jwtToken =
      jwtStr ∧
    checkAccessToken decode usersLater bl chkNow (some jwtStr) =
      ⟨false, none⟩ ∧
    (silentRefresh (some freshToken) w2).1 =
      ⟨400, none, "", [invalidRefreshTokenError]⟩ ∧
    (silentRefresh (some freshToken) w2).2.1 = clearRefreshCookie := by
  refine ⟨?_, ?_, ?_, ?_, ?_⟩
  · simp [loginUser, hdata, hsign, Except.bind, bind, pure, Except.pure]
  · simp [loginUser, hdata, hsign, Except.bind, bind, pure, Except.pure]
  · simp [checkAccessToken, hdec, hlater, findUser] at *
    simp [checkAccessToken, hdec, hlater, hchanged]
  · simp only [silentRefresh, refreshAllTokens, hw2look, hw2users, hlater,
      generateRefreshTokenData, hchanged]
    simp [hlater, hchanged]
    split
    · rfl
    · rename_i rt heq
      split at heq <;> simp at heq
  · simp only [silentRefresh, refreshAllTokens, hw2look, hw2users, hlater,
      generateRefreshTokenData, hchanged]
    simp [hlater, hchanged]
    split
    · rfl
    · rename_i rt heq
      split at heq <;> simp at heq

/-- Witness for C7: a concrete login under hash `h1` issues access token
`jwt1` and refresh token `rt1`; after the hash changes to `h2` the gate
rejects `jwt1` and `silentRefresh` rejects `rt1` with 400, both well
before their natural expiry. -/
theorem password_change_invalidates_tokens_witness :
    checkAccessToken
        (fun s => if s = "jwt1" then some ⟨"u1", "h1", 600⟩ else none)
        [⟨"u1", "h2"⟩] [] 5 (some "jwt1") = ⟨false, none⟩ ∧
    (silentRefresh (some "rt1")
        ⟨[⟨"u1", "h2"⟩], ⟨[generateRefreshTokenData "rt1" "u1" "h1" 0], []⟩,
         10, fun _ => "f", 0, fun _ _ _ => "j"⟩).1 =
      ⟨400, none, "", [invalidRefreshTokenError]⟩ := by
  have H := password_change_invalidates_tokens
    (fun s => if s = "jwt1" then some ⟨"u1", "h1", 600⟩ else none)
    ⟨some ⟨"u1", "h1"⟩, [], 200⟩ ⟨"u1", "h1"⟩ (fun _ _ => Except.ok "jwt1")
    "rt1" "jwt1" 0 600 ⟨[], []⟩ [⟨"u1", "h2"⟩] "h2" [] 5
    ⟨[⟨"u1", "h2"⟩], ⟨[generateRefreshTokenData "rt1" "u1" "h1" 0], []⟩, 10,
     fun _ => "f", 0, fun _ _ _ => "j"⟩
    rfl rfl (by decide) (by decide) (by decide) rfl (by decide) (by decide)
  exact ⟨H.2.2.1, H.2.2.2.1⟩

/-- Replacing an entry by one with the same counted status keeps
`countP`. -/
theorem countP_set_same {α : Type} (p : α → Bool) (l : List α) :
    ∀ (i : Nat) (a b : α), l[i]? = some b → p a = p b →
      (l.set i a).countP p = l.countP p := by
  induction l with
  | nil => intro i a b hb _; simp at hb
  | cons c tl ih =>
    intro i a b hb hab
    cases i with
    | zero =>
      simp at hb
      subst hb
      simp [List.countP_cons, hab]
    | succ j =>
      simp at hb
      simp [List.countP_cons, ih j a b hb hab]

/-- Replacing an uncounted entry by a counted one increments `countP`. -/
theorem countP_set_incr {α : Type} (p : α → Bool) (l : List α) :
    ∀ (i : Nat) (a b : α), l[i]? = some b → p b = false → p a = true →
      (l.set i a).countP p = l.countP p + 1 := by
  induction l with
  | nil => intro i a b hb _ _; simp at hb
  | cons c tl ih =>
    intro i a b hb hbf ha
    cases i with
    | zero =>
      simp at hb
      subst hb
      simp [List.countP_cons, hbf, ha]
    | succ j =>
      simp at hb
      cases hpc : p c <;>
        simp [List.countP_cons, hpc, ih j a b hb hbf ha]

/-- After `whitelistRemoveToken` the removed token is gone. -/
theorem whitelistLookup_removeToken_self (wl : List RefreshTokenData)
    (t : String) : whitelistLookup (whitelistRemoveToken wl t) t = none := by
  rw [whitelistLookup, List.find?_eq_none]
  intro r hr
  simp only [whitelistRemoveToken] at hr
  have h2 := (List.mem_filter.mp hr).2
  simp at h2 ⊢
  exact h2

/-- A record stored under a different token does not affect lookup. -/
theorem whitelistLookup_cons_ne (rec : RefreshTokenData)
    (wl : List RefreshTokenData) (t : String) (h : rec.refreshToken ≠ t) :
    whitelistLookup (rec :: wl) t = whitelistLookup wl t := by
  rw [whitelistLookup, whitelistLookup]
  exact List.find?_cons_of_neg _ (by simp [h])

/-- The success shape of one whole refresh rotation: with a present,
unexpired, fingerprint-matching record the resolver answers 200 with the
newly signed access token, installs the freshly drawn refresh token as the
cookie, and replaces the whitelist record. -/
theorem silentRefresh_success (w : World) (t : String)
    (r : RefreshTokenData) (u : User)
    (hlook : whitelistLookup w.store.whitelist t = some r)
    (hexp : w.now < r.expiresAt)
    (huser : findUser w.users r.userId = some u)
    (hfp : u.passwordHash = r.passwordHash) :
    silentRefresh (some t) w =
      (⟨200, some u, w.sign r.userId u.passwordHash
          (w.now + JWT_TOKEN_EXPIRATION_IN_SECONDS), []⟩,
       setRefreshCookie (w.tokenSupply w.tokenCtr),
       { w with
           store := { w.store with
             whitelist :=
               generateRefreshTokenData (w.tokenSupply w.tokenCtr) r.userId
                 u.passwordHash w.now ::
                 whitelistRemoveToken w.store.whitelist t },
           tokenCtr := w.tokenCtr + 1 }) := by
  simp [silentRefresh, refreshAllTokens, hlook, hexp, huser, hfp,
    generateRefreshTokenData]

/-- When the presented token is not in the whitelist, every call of a
whole chain of refresh attempts rejects with the 400 envelope. -/
theorem silentRefreshChain_all_400 (t : String) :
    ∀ (k : Nat) (w : World), whitelistLookup w.store.whitelist t = none →
      ∀ resp ∈ (silentRefreshChain (some t) k w).1,
        resp = ⟨400, none, "", [invalidRefreshTokenError]⟩ := by
  intro k
  induction k with
  | zero => intro w _ resp hresp; simp [silentRefreshChain] at hresp
  | succ n ih =>
    intro w hnone resp hresp
    have hstep : silentRefresh (some t) w =
        (⟨400, none, "", [invalidRefreshTokenError]⟩, clearRefreshCookie, w) := by
      simp [silentRefresh, refreshAllTokens, hnone]
    simp only [silentRefreshChain, hstep] at hresp
    simp at hresp
    rcases hresp with h | h
    · exact h
    · exact ih w hnone resp h

/-- One concurrent store event preserves the rotation invariant. -/
theorem rotStep_preserves_inv (users : List User) (now : Nat)
    (supply : Nat → String) (t : String) (r : RefreshTokenData) (u : User)
    (hexp : now < r.expiresAt)
    (huser : findUser users r.userId = some u)
    (hfp : u.passwordHash = r.passwordHash)
    (hfresh : ∀ k, supply k ≠ t)
    (s : RotState) (e : RotEvt) (hInv : RotInv t r s) :
    RotInv t r (rotStep users now supply t s e) := by
  cases e with
  | lookup i =>
    cases hcall : s.calls[i]? with
    | none => simpa [rotStep, hcall] using hInv
    | some p =>
      cases p with
      | validated r2 => simpa [rotStep, hcall] using hInv
      | done b => simpa [rotStep, hcall] using hInv
      | start =>
        rcases hInv with ⟨h0, hlk, hph⟩ | ⟨h1, hlk⟩
        · have hstep : rotStep users now supply t s (.lookup i) =
              { s with calls := s.calls.set i (Phase.validated r) } := by
            simp [rotStep, hcall, hlk, hexp, huser, hfp]
          rw [hstep]
          left
          refine ⟨?_, hlk, ?_⟩
          · simp only [successCount] at h0 ⊢
            rw [countP_set_same isSuccess s.calls i (Phase.validated r)
              Phase.start hcall rfl]
            exact h0
          · intro p hp
            rcases List.mem_or_eq_of_mem_set hp with hmem | hpe
            · exact hph p hmem
            · right; rw [hpe]
        · have hstep : rotStep users now supply t s (.lookup i) =
              { s with calls := s.calls.set i (Phase.done false) } := by
            simp [rotStep, hcall, hlk]
          rw [hstep]
          right
          refine ⟨?_, hlk⟩
          simp only [successCount] at h1 ⊢
          rw [countP_set_same isSuccess s.calls i (Phase.done false)
            Phase.start hcall rfl]
          exact h1
  | cas i =>
    cases hcall : s.calls[i]? with
    | none => simpa [rotStep, hcall] using hInv
    | some p =>
      cases p with
      | start => simpa [rotStep, hcall] using hInv
      | done b => simpa [rotStep, hcall] using hInv
      | validated r2 =>
        rcases hInv with ⟨h0, hlk, hph⟩ | ⟨h1, hlk⟩
        · have hmem : Phase.validated r2 ∈ s.calls := List.getElem?_mem hcall
          have hr2 : r2 = r := by
            rcases hph _ hmem with h | h
            · exact absurd h (by simp)
            · injection h
          subst hr2
          have hsome : (whitelistLookup s.wl t).isSome = true := by
            rw [hlk]; rfl
          have hstep : rotStep users now supply t s (.cas i) =
              { s with
                  wl := generateRefreshTokenData (supply s.ctr) r2.userId
                          r2.passwordHash now :: whitelistRemoveToken s.wl t,
                  ctr := s.ctr + 1,
                  calls := s.calls.set i (Phase.done true) } := by
            simp [rotStep, hcall, hsome]
          rw [hstep]
          right
          constructor
          · simp only [successCount] at h0 ⊢
            rw [countP_set_incr isSuccess s.calls i (Phase.done true)
              (Phase.validated r2) hcall rfl rfl]
            omega
          · rw [whitelistLookup_cons_ne _ _ _
              (by simp [generateRefreshTokenData]; exact hfresh s.ctr)]
            exact whitelistLookup_removeToken_self s.wl t
        · have hns : (whitelistLookup s.wl t).isSome = false := by
            rw [hlk]; rfl
          have hstep : rotStep users now supply t s (.cas i) =
              { s with calls := s.calls.set i (Phase.done false) } := by
            simp [rotStep, hcall, hns]
          rw [hstep]
          right
          refine ⟨?_, hlk⟩
          simp only [successCount] at h1 ⊢
          rw [countP_set_same isSuccess s.calls i (Phase.done false)
            (Phase.validated r2) hcall rfl]
          exact h1

/-- Any interleaving of concurrent store events preserves the rotation
invariant. -/
theorem rotRun_preserves_inv (users : List User) (now : Nat)
    (supply : Nat → String) (t : String) (r : RefreshTokenData) (u : User)
    (hexp : now < r.expiresAt)
    (huser : findUser users r.userId = some u)
    (hfp : u.passwordHash = r.passwordHash)
    (hfresh : ∀ k, supply k ≠ t) :
    ∀ (events : List RotEvt) (s : RotState), RotInv t r s →
      RotInv t r (rotRun users now supply t s events) := by
  intro events
  induction events with
  | nil => intro s h; exact h
  | cons e rest ih =>
    intro s h
    exact ih _
      (rotStep_preserves_inv users now supply t r u hexp huser hfp hfresh s e h)

/-- A concurrent store event does not change how many calls there are. -/
theorem rotStep_calls_length (users : List User) (now : Nat)
    (supply : Nat → String) (t : String) (s : RotState) (e : RotEvt) :
    (rotStep users now supply t s e).calls.length = s.calls.length := by
  cases e with
  | lookup i =>
    simp only [rotStep]
    repeat' split
    all_goals simp [List.length_set]
  | cas i =>
    simp only [rotStep]
    repeat' split
    all_goals simp [List.length_set]

/-- No interleaving changes how many calls there are. -/
theorem rotRun_calls_length (users : List User) (now : Nat)
    (supply : Nat → String) (t : String) :
    ∀ (events : List RotEvt) (s : RotState),
      (rotRun users now supply t s events).calls.length = s.calls.length := by
  intro events
  induction events with
  | nil => intro s; rfl
  | cons e rest ih =>
    intro s
    rw [show rotRun users now supply t s (e :: rest) =
          rotRun users now supply t (rotStep users now supply t s e) rest
        from rfl,
      ih, rotStep_calls_length]

/-- Claim C1: a whitelisted, unexpired, fingerprint-matching refresh token
rotates exactly once.  Sequentially, the first `silentRefresh` call
presenting it returns 200 with a newly signed access token and a freshly
drawn refresh token (distinct from the original), and every subsequent
call presenting the original token returns the 400 InvalidRefreshToken
envelope.  Concurrently — over every interleaving of the atomic store
events of any number of calls presenting that token — never do two calls
succeed, and once every call has run to completion exactly one has. -/
theorem silentRefresh_rotation_exactly_once (w : World) (t : String)
    (r : RefreshTokenData) (u : User)
    (hlook : whitelistLookup w.store.whitelist t = some r)
    (hexp : w.now < r.expiresAt)
    (huser : findUser w.users r.userId = some u)
    (hfp : u.passwordHash = r.passwordHash)
    (hfresh : ∀ k, w.tokenSupply k ≠ t) :
    ((silentRefresh (some t) w).1 =
        ⟨200, some u, w.sign r.userId u.passwordHash
          (w.now + JWT_TOKEN_EXPIRATION_IN_SECONDS), []⟩ ∧
      (silentRefresh (some t) w).2.1 =
        setRefreshCookie (w.tokenSupply w.tokenCtr) ∧
      w.tokenSupply w.tokenCtr ≠ t) ∧
    (∀ k : Nat,
      ∀ resp ∈ (silentRefreshChain (some t) k
          (silentRefresh (some t) w).2.2).1,
        resp = ⟨400, none, "", [invalidRefreshTokenError]⟩) ∧
    (∀ (m : Nat) (events : List RotEvt),
      successCount (rotRun w.users w.now w.tokenSupply t
          ⟨w.store.whitelist, w.tokenCtr, List.replicate m Phase.start⟩
          events) ≤ 1 ∧
      (0 < m →
        (∀ p ∈ (rotRun w.users w.now w.tokenSupply t
            ⟨w.store.whitelist, w.tokenCtr, List.replicate m Phase.start⟩
            events).calls, isDone p = true) →
        successCount (rotRun w.users w.now w.tokenSupply t
          ⟨w.store.whitelist, w.tokenCtr, List.replicate m Phase.start⟩
          events) = 1)) := by
  have hsucc := silentRefresh_success w t r u hlook hexp huser hfp
  refine ⟨⟨by rw [hsucc], by rw [hsucc], hfresh w.tokenCtr⟩, ?_, ?_⟩
  · have hnone : whitelistLookup
        ((silentRefresh (some t) w).2.2).store.whitelist t = none := by
      rw [hsucc]
      show whitelistLookup
        (generateRefreshTokenData (w.tokenSupply w.tokenCtr) r.userId
          u.passwordHash w.now :: whitelistRemoveToken w.store.whitelist t)
        t = none
      rw [whitelistLookup_cons_ne _ _ _
        (by simp [generateRefreshTokenData]; exact hfresh w.tokenCtr)]
      exact whitelistLookup_removeToken_self w.store.whitelist t
    intro k resp hresp
    exact silentRefreshChain_all_400 t k _ hnone resp hresp
  · intro m events
    have hInvInit : RotInv t r
        ⟨w.store.whitelist, w.tokenCtr, List.replicate m Phase.start⟩ := by
      left
      refine ⟨?_, hlook, ?_⟩
      · simp only [successCount]
        rw [List.countP_eq_zero]
        intro p hp
        rw [(List.mem_replicate.mp hp).2]
        simp [isSuccess]
      · intro p hp
        left
        exact (List.mem_replicate.mp hp).2
    have hInv := rotRun_preserves_inv w.users w.now w.tokenSupply t r u hexp
      huser hfp hfresh events
      ⟨w.store.whitelist, w.tokenCtr, List.replicate m Phase.start⟩ hInvInit
    constructor
    · rcases hInv with ⟨h0, _, _⟩ | ⟨h1, _⟩
      · omega
      · omega
    · intro hm hdone
      rcases hInv with ⟨h0, hlk, hph⟩ | ⟨h1, _⟩
      · exfalso
        have hlen : (rotRun w.users w.now w.tokenSupply t
            ⟨w.store.whitelist, w.tokenCtr, List.replicate m Phase.start⟩
            events).calls.length = m := by
          rw [rotRun_calls_length]
          simp
        rcases List.exists_mem_of_length_pos
            (l := (rotRun w.users w.now w.tokenSupply t
              ⟨w.store.whitelist, w.tokenCtr, List.replicate m Phase.start⟩
              events).calls) (by rw [hlen]; exact hm) with ⟨p, hp⟩
        have hd := hdone p hp
        rcases hph p hp with h | h <;> rw [h] at hd <;> simp [isDone] at hd
      · exact h1

/-- Witness for C1: in a concrete world holding refresh token `t0` for
user `u1`, the first refresh succeeds with 200, two follow-up calls
presenting `t0` both answer 400 InvalidRefreshToken, and over a concrete
interleaving of two concurrent calls (both lookups before both
replacements) exactly one call succeeds. -/
theorem silentRefresh_rotation_exactly_once_witness :
    (silentRefresh (some "t0")
        ⟨[⟨"u1", "h1"⟩], ⟨[⟨"t0", "u1", "h1", 100⟩], []⟩, 0,
         fun _ => "fresh", 0, fun _ _ _ => "jwtX"⟩).1.statusCode = 200 ∧
    (∀ resp ∈ (silentRefreshChain (some "t0") 2
        (silentRefresh (some "t0")
          ⟨[⟨"u1", "h1"⟩], ⟨[⟨"t0", "u1", "h1", 100⟩], []⟩, 0,
           fun _ => "fresh", 0, fun _ _ _ => "jwtX"⟩).2.2).1,
      resp = ⟨400, none, "", [invalidRefreshTokenError]⟩) ∧
    successCount (rotRun [⟨"u1", "h1"⟩] 0 (fun _ => "fresh") "t0"
      ⟨[⟨"t0", "u1", "h1", 100⟩], 0, List.replicate 2 Phase.start⟩
      [RotEvt.lookup 0, RotEvt.lookup 1, RotEvt.cas 0, RotEvt.cas 1]) = 1 := by
  have H := silentRefresh_rotation_exactly_once
    ⟨[⟨"u1", "h1"⟩], ⟨[⟨"t0", "u1", "h1", 100⟩], []⟩, 0,
     fun _ => "fresh", 0, fun _ _ _ => "jwtX"⟩
    "t0" ⟨"t0", "u1", "h1", 100⟩ ⟨"u1", "h1"⟩ rfl (by decide) rfl rfl
    (fun _ => by show "fresh" ≠ "t0"; decide)
  refine ⟨?_, H.2.1 2, ?_⟩
  · rw [H.1.1]
  · exact (H.2.2 2
      [RotEvt.lookup 0, RotEvt.lookup 1, RotEvt.cas 0, RotEvt.cas 1]).2
      (by decide) (by decide)

end Flix
